import Mathlib

/-!
Verification of the semantic-search core of the synbio-parts-db repository.

The definitions below are a shallow embedding of
`streamlit_version/data/search_v2.py` (class `SemanticSearch`) and of the
error handler of `streamlit_version/pages/qa.py`.  Pure string and list
manipulation is translated directly; the external collaborators (the
sentence-transformer encoder, the LanceDB vector index, and the DeepSeek
language-model client) are passed in as explicit function arguments or
oracle values, exactly at the boundary where the Python code calls them.
Python dictionaries that the code indexes dynamically are modelled as
association lists, and a raising dictionary access is modelled in the
`Except` monad so that a `KeyError` is an observable outcome.
-/

namespace SynbioParts

/-! ## String utilities -/

/-- Substring test on character lists: `needle` occurs somewhere in `hay`.
Models the Python `in` operator on strings (an empty needle always occurs). -/
def containsAux (needle : List Char) : List Char → Bool
  | [] => needle.isEmpty
  | c :: rest => needle.isPrefixOf (c :: rest) || containsAux needle rest

/-- Python `needle in hay` on strings. -/
def strContains (hay needle : String) : Bool :=
  containsAux needle.data hay.data

/-- Python regex `\s` character class: space, tab, newline, carriage return,
vertical tab, form feed. -/
def pyIsSpace (c : Char) : Bool :=
  c == ' ' || c == '\t' || c == '\n' || c == '\r' ||
  c == Char.ofNat 11 || c == Char.ofNat 12

/-- Lowercasing of one character, as Python `str.lower` acts on the ASCII
range (every string the code lowercases is ASCII). -/
def pyCharLower (c : Char) : Char :=
  if 'A' ≤ c && c ≤ 'Z' then Char.ofNat (c.toNat + 32) else c

/-- Python `s.lower()` on ASCII strings. -/
def pyLower (s : String) : String :=
  String.mk (s.data.map pyCharLower)

/-! ## The regex salvage of `optimize_query`

`re.search(r+quote+optimized_query+quote+colon... , content)` from
`search_v2.py` lines 238-246: the literal key `"optimized_query"` (with its
double quotes), optional whitespace, a colon, optional whitespace, an opening
double quote, one or more non-quote characters (captured), and a closing
double quote.  `re.search` returns the match at the leftmost position where
the whole pattern matches. -/

/-- The literal characters of the pattern head: `"optimized_query"`,
double quotes included. -/
def salvageKey : List Char := "\"optimized_query\"".data

/-- Attempt to match the tail of the salvage pattern (everything after the
literal key) at the start of `cs`; returns the captured group on success. -/
def salvageTail (cs : List Char) : Option String :=
  match cs.dropWhile pyIsSpace with
  | ':' :: rest =>
    match rest.dropWhile pyIsSpace with
    | '"' :: rest2 =>
      let captured := rest2.takeWhile (fun c => c != '"')
      if captured.isEmpty then Option.none
      else
        match rest2.drop captured.length with
        | '"' :: _ => some (String.mk captured)
        | _ => Option.none
    | _ => Option.none
  | _ => Option.none

/-- Leftmost-position search for the full salvage pattern. -/
def salvageSearch : List Char → Option String
  | [] => Option.none
  | c :: rest =>
    if salvageKey.isPrefixOf (c :: rest) then
      match salvageTail ((c :: rest).drop salvageKey.length) with
      | some s => some s
      | Option.none => salvageSearch rest
    else salvageSearch rest

/-- The whole salvage step of `optimize_query` (lines 238-246): the regex is
only attempted when the literal key occurs in the content, and the captured
group replaces the fallback only when the pattern matches. -/
def salvageOf (content : String) : Option String :=
  if strContains content "\"optimized_query\"" then salvageSearch content.data
  else Option.none

/-! ## Python values and dictionaries -/

/-- The value shapes stored in the dynamically-indexed Python dictionaries
that the claims touch (row dictionaries, chat-history messages): strings,
numbers, and `None`.  Similarity scores are modelled as rationals. -/
inductive PyVal where
  | str (s : String)
  | num (q : Rat)
  | none
  deriving DecidableEq, Repr

/-- A Python dictionary, as an association list in insertion order. -/
abbrev PyDict := List (String × PyVal)

/-- First value stored under key `k`, if any. -/
def pyLookup (d : PyDict) (k : String) : Option PyVal :=
  match d with
  | [] => Option.none
  | (k2, v) :: rest => if k2 == k then some v else pyLookup rest k

/-- Python `d[k]`: raises `KeyError` when the key is absent.  The raised
exception is modelled as the `Except` error `"KeyError: " ++ k`. -/
def pyIndex (d : PyDict) (k : String) : Except String PyVal :=
  match pyLookup d k with
  | some v => Except.ok v
  | Option.none => Except.error ("KeyError: " ++ k)

/-- Python `d.get(k, dflt)` (and `d.get(k)` with `dflt = PyVal.none`). -/
def pyGetD (d : PyDict) (k : String) (dflt : PyVal) : PyVal :=
  (pyLookup d k).getD dflt

/-- Python string conversion of a value, as used inside f-strings. -/
def pyToStr : PyVal → String
  | .str s => s
  | .num q => toString q
  | .none => "None"

/-- Python truthiness of an optional list argument: `None` and the empty
list are falsy, a non-empty list is truthy. -/
def pyTruthy {α : Type} : Option (List α) → Bool
  | Option.none => false
  | some l => !l.isEmpty

/-! ## Source alias table (`SemanticSearch.__init__`, lines 34-43) -/

/-- `self.source_mapping`, in the order it is written in the source. -/
def source_mapping : List (String × String) :=
  [("iGEM registry", "igem"),
   ("iGEM", "igem"),
   ("igem", "igem"),
   ("laboratory", "lab"),
   ("lab", "lab"),
   ("addgene", "addgene"),
   ("snapgene", "snapgene"),
   ("yunzhou", "yunzhou")]

/-- Lookup in a string association table. -/
def tableLookup (t : List (String × String)) (k : String) : Option String :=
  match t with
  | [] => Option.none
  | (k2, v) :: rest => if k2 == k then some v else tableLookup rest k

/-- `self.source_mapping.get(s.lower(), s)` - the canonicalization applied to
each excluded source in `search` (line 362): the key is lowercased before the
lookup, and the original spelling is kept when the lowercased key is absent
from the table. -/
def canonicalizeSource (s : String) : String :=
  (tableLookup source_mapping (pyLower s)).getD s

/-! ## Query optimizer (`SemanticSearch.optimize_query`, lines 114-290) -/

/-- The `filters` object of the optimizer JSON shape.  A missing key and an
empty list are indistinguishable downstream (the consumers only test
truthiness), so missing keys are modelled as empty lists. -/
structure OptFilters where
  include_types : List String
  exclude_types : List String
  include_sources : List String
  exclude_sources : List String
  deriving DecidableEq, Repr

/-- The all-empty filter object used as the default. -/
def emptyFilters : OptFilters := ⟨[], [], [], []⟩

/-- The fields of a successfully parsed JSON object returned by the model.
`Option.none` in a field means the key is absent from the object (Python
`result.get(key, default)` then picks the default). -/
structure OptJson where
  optimized_query : Option String
  explanation : Option String
  key_terms : Option (List String)
  part_type : Option String
  organism : Option String
  filters : Option OptFilters
  deriving DecidableEq, Repr

/-- Outcome of the external language-model call made by `optimize_query`.
`failure msg` models any exception raised inside the try block before a
result dictionary is built (transport error, API error, or a content whose
parsed JSON is not an object); `response content parsed` models a returned
message content, where `parsed = some obj` is the outcome of
`json.loads(content)` succeeding with an object and `parsed = Option.none`
is `json.loads` raising `JSONDecodeError`.  The parse outcome is an oracle
because a full JSON parser is outside the embedded code. -/
inductive ApiOutcome where
  | failure (msg : String)
  | response (content : String) (parsed : Option OptJson)

/-- The dictionary returned by `optimize_query`. -/
structure OptResult where
  status : String
  original_query : String
  optimized_query : String
  explanation : String
  error_message : Option String
  key_terms : List String
  part_type : String
  organism : String
  filters : OptFilters
  deriving DecidableEq, Repr

/-- `SemanticSearch.optimize_query`: parses the model response, salvages the
optimized query on malformed JSON (lines 229-262), and converts any raised
exception into a status-error result (lines 264-282). -/
def optimize_query (query : String) (api : ApiOutcome) : OptResult :=
  match api with
  | .failure e =>
    { status := "error"
      original_query := query
      optimized_query := query
      explanation := "Failed to optimize query"
      error_message := some e
      key_terms := []
      part_type := ""
      organism := ""
      filters := emptyFilters }
  | .response content parsed =>
    match parsed with
    | some result =>
      { status := "success"
        original_query := query
        optimized_query := result.optimized_query.getD query
        explanation :=
          result.explanation.getD "Query has been optimized for vector similarity search"
        error_message := Option.none
        key_terms := result.key_terms.getD []
        part_type := result.part_type.getD ""
        organism := result.organism.getD ""
        filters := result.filters.getD emptyFilters }
    | Option.none =>
      { status := "partial_success"
        original_query := query
        optimized_query := (salvageOf content).getD query
        explanation := "Failed to parse JSON response"
        error_message := Option.none
        key_terms := []
        part_type := ""
        organism := ""
        filters := emptyFilters }

/-! ## Filter compiler (`SemanticSearch.search`, lines 328-373)

The Python code assembles SQL condition strings and joins them with
`" AND "`; the nested structure it ever produces is fixed: a parenthesized
disjunction of atomic conditions for requested types, `IN` / `NOT IN`
membership for sources, and a parenthesized conjunction of atomic
inequalities for excluded types.  The abstract syntax below mirrors exactly
those string shapes, and `evalCond` gives them their SQL meaning on a row. -/

/-- An atomic SQL condition as interpolated by the code: equality,
inequality, or a `LIKE` with a pattern wrapped in percent signs. -/
inductive Atom where
  | eq (field value : String)
  | ne (field value : String)
  | like (field pat : String)
  deriving DecidableEq, Repr

/-- One member of the `where` list built by `search`. -/
inductive Cond where
  | orAtoms (cs : List Atom)
  | andAtoms (cs : List Atom)
  | inSet (field : String) (values : List String)
  | notInSet (field : String) (values : List String)
  deriving DecidableEq, Repr

/-- The row attributes consumed by the compiled predicates. -/
structure Row where
  name : String
  type : String
  type_level_1 : String
  type_level_2 : String
  source_collection : String
  description : String
  deriving DecidableEq, Repr

/-- Attribute access by SQL column name. -/
def rowGet (r : Row) : String → String
  | "name" => r.name
  | "type" => r.type
  | "type_level_1" => r.type_level_1
  | "type_level_2" => r.type_level_2
  | "source_collection" => r.source_collection
  | "description" => r.description
  | _ => ""

/-- SQL meaning of an atomic condition (`LIKE` with percent signs on both
sides is substring containment, case sensitive). -/
def evalAtom (r : Row) : Atom → Bool
  | .eq f v => rowGet r f == v
  | .ne f v => rowGet r f != v
  | .like f p => strContains (rowGet r f) p

/-- SQL meaning of one member of the `where` list. -/
def evalCond (r : Row) : Cond → Bool
  | .orAtoms cs => cs.any (evalAtom r)
  | .andAtoms cs => cs.all (evalAtom r)
  | .inSet f vs => vs.contains (rowGet r f)
  | .notInSet f vs => !vs.contains (rowGet r f)

/-- SQL meaning of the whole clause: the members are joined by `AND`. -/
def matchesWhere (w : List Cond) (r : Row) : Bool :=
  w.all (evalCond r)

/-- Per-type atomic conditions (lines 332-349).  When the requested sources
contain the literal tag `igem` the hierarchical schema is used, with the
special-cased name heuristic for `promoter`; otherwise the legacy flat
`type` field. -/
def typeCondsFor (igemMode : Bool) (t : String) : List Atom :=
  if igemMode then
    if pyLower t == "promoter" then
      [Atom.eq "type_level_1" "DNA Elements",
       Atom.eq "type_level_2" "Regulatory",
       Atom.like "name" "promoter"]
    else
      [Atom.eq "type_level_1" t, Atom.eq "type_level_2" t]
  else
    [Atom.eq "type" t]

/-- The conditions contributed by a successful optimization (lines 356-373):
excluded sources are canonicalized and become a `NOT IN`, excluded types
become a conjunction of inequalities on all three type columns.  A non
success status, or an empty exclusion list, contributes nothing. -/
def exclusionConds (status : String)
    (exclude_sources exclude_types : List String) : List Cond :=
  if status == "success" then
    (if !exclude_sources.isEmpty then
      [Cond.notInSet "source_collection" (exclude_sources.map canonicalizeSource)]
     else []) ++
    (if !exclude_types.isEmpty then
      [Cond.andAtoms ((exclude_types.map (fun t =>
        [Atom.ne "type" t, Atom.ne "type_level_1" t, Atom.ne "type_level_2" t])).flatten)]
     else [])
  else []

/-- The full `where` list built by `search` (lines 329-373): requested types
first (one disjunction), then the raw - not canonicalized - source
membership, then the optimizer-derived exclusions (only when `optimize` was
requested and the optimization result has status success). -/
def buildWhere (types source_collections : List String)
    (optimize : Bool) (optResult : Option OptResult) : List Cond :=
  let igemMode := !source_collections.isEmpty && source_collections.contains "igem"
  (if !types.isEmpty then
    [Cond.orAtoms ((types.map (typeCondsFor igemMode)).flatten)]
   else []) ++
  (if !source_collections.isEmpty then
    [Cond.inSet "source_collection" source_collections]
   else []) ++
  (if optimize then
    match optResult with
    | some r => exclusionConds r.status r.filters.exclude_sources r.filters.exclude_types
    | Option.none => []
   else [])

/-! ## Search orchestrator (`SemanticSearch.search`, lines 292-411) -/

/-- The query text handed to the embedding model (lines 310-326): the
optimized text replaces the input only when `optimize` was requested and the
optimization status is success. -/
def usedQuery (query : String) (optimize : Bool) (optResult : Option OptResult) : String :=
  if optimize then
    match optResult with
    | some r => if r.status == "success" then r.optimized_query else query
    | Option.none => query
  else query

/-- The filters echoed in the search response (lines 300-303). -/
structure SearchFilters where
  types : List String
  source_collections : List String
  deriving DecidableEq, Repr

/-- The response dictionary returned by `search`. -/
structure SearchResponse where
  query : String
  optimize : Bool
  top_k : Nat
  filters : SearchFilters
  optimization : Option OptResult
  results : List PyDict
  deriving DecidableEq, Repr

/-- Mapping of one raw index row into a response entry (lines 400-407):
`name`, `type` and `description` are indexed directly (raising on a missing
key), the two source fields fall back to the empty string, and `similarity`
is read from the `_distance` column that vector search attaches. -/
def mapSearchRow (result : PyDict) : Except String PyDict := do
  let name ← pyIndex result "name"
  let ty ← pyIndex result "type"
  let desc ← pyIndex result "description"
  let src := pyGetD result "source_collection" (PyVal.str "")
  let srcName := pyGetD result "source_name" (PyVal.str "")
  let dist ← pyIndex result "_distance"
  Except.ok
    [("name", name), ("type", ty), ("description", desc),
     ("source_collection", src), ("source_name", srcName), ("similarity", dist)]

/-- `SemanticSearch.search`: the response is created first with the call
arguments echoed verbatim, the optimizer is consulted when requested, the
query vector is computed from the possibly substituted query text, the
`where` list is compiled, and the index is consulted with the clause only
when the list is non-empty.  `encode` and `index` stand for the embedding
model and the LanceDB table. -/
def search_core (query : String) (top_k : Nat) (optimize : Bool)
    (types source_collections : List String)
    (api : ApiOutcome)
    (encode : String → List Rat)
    (index : List Rat → Option (List Cond) → Nat → List PyDict) :
    Except String SearchResponse :=
  let optResult := if optimize then some (optimize_query query api) else Option.none
  let query_embedding := encode (usedQuery query optimize optResult)
  let w := buildWhere types source_collections optimize optResult
  match (index query_embedding (if w.isEmpty then Option.none else some w) top_k).mapM
      mapSearchRow with
  | Except.error e => Except.error e
  | Except.ok results =>
    Except.ok
      { query := query
        optimize := optimize
        top_k := top_k
        filters := ⟨types, source_collections⟩
        optimization := optResult
        results := results }

/-! ## Conversational QA engine (`SemanticSearch.ask_question`, lines 413-582) -/

/-- Stable insertion of an `(index, similarity)` pair into a list already
sorted by descending similarity: the new element, which originates earlier
in the input, is placed before any element of equal similarity. -/
def insertBySimDesc (x : Nat × Rat) : List (Nat × Rat) → List (Nat × Rat)
  | [] => [x]
  | y :: ys => if y.2 ≤ x.2 then x :: y :: ys else y :: insertBySimDesc x ys

/-- `similarities.sort(key, reverse=True)` from line 442: the Python sort is
stable and descending on the similarity component; a stable descending sort
has a unique result, computed here by insertion. -/
def sortBySimDesc : List (Nat × Rat) → List (Nat × Rat)
  | [] => []
  | x :: xs => insertBySimDesc x (sortBySimDesc xs)

/-- Retrieval step of `ask_question` (lines 430-461).  When the ad-hoc data
and embeddings are both truthy and of equal length, the similarity of the
question to every ad-hoc embedding is computed, the pairs are sorted by
descending similarity, the first `top_k` are kept, and each selected part is
repackaged as a row dictionary (`similarity` key, `source` renamed to
`source_collection`).  Otherwise the main index is consulted with no filter.
`cosine` stands for the numpy cosine-similarity expression of line 438 (its
value involves real square roots, so it is passed in at the call boundary),
and `index` for the LanceDB table. -/
def ask_retrieval (question_embedding : List Rat)
    (cosine : List Rat → List Rat → Rat)
    (temp_parts_data : Option (List PyDict))
    (temp_parts_embeddings : Option (List (List Rat)))
    (top_k : Nat)
    (index : List Rat → Option (List Cond) → Nat → List PyDict) :
    Except String (List PyDict) :=
  if pyTruthy temp_parts_data && pyTruthy temp_parts_embeddings &&
      ((temp_parts_data.getD []).length == (temp_parts_embeddings.getD []).length) then
    let similarities := (temp_parts_embeddings.getD []).enum.map
      (fun p => (p.1, cosine question_embedding p.2))
    let top_results := (sortBySimDesc similarities).take top_k
    top_results.mapM (fun p => do
      let part := (temp_parts_data.getD []).getD p.1 []
      let name ← pyIndex part "name"
      let ty ← pyIndex part "type"
      let desc ← pyIndex part "description"
      let src ← pyIndex part "source"
      Except.ok
        [("name", name), ("type", ty), ("description", desc),
         ("source_collection", src), ("similarity", PyVal.num p.2)])
  else
    Except.ok (index question_embedding Option.none top_k)

/-- One block of the grounding context (lines 465-471). -/
def contextPart (result : PyDict) : Except String String := do
  let name ← pyIndex result "name"
  let ty ← pyIndex result "type"
  let src := pyGetD result "source_collection" (PyVal.str "Unknown")
  let desc ← pyIndex result "description"
  Except.ok
    ("Part Name: " ++ pyToStr name ++ "\n" ++
     "Type: " ++ pyToStr ty ++ "\n" ++
     "Source: " ++ pyToStr src ++ "\n" ++
     "Description: " ++ pyToStr desc ++ "\n")

/-- The system prompt of `ask_question` (line 479). -/
def qaSystemContent : String :=
  "You are a professional synthetic biology assistant specialized in explaining biological parts and their functions. Provide accurate, scientific answers based only on the information provided from the database context. If the user asks a follow-up question, use the provided chat history to understand the context of their current question."

/-- The user prompt of `ask_question` (lines 495-502). -/
def userPromptContent (db_context question : String) : String :=
  "Here is information about biological parts relevant to the current question:\n\n"
    ++ db_context
    ++ "\n\nBased on the information above, AND considering our previous conversation if relevant, please answer the following question: "
    ++ question
    ++ "\n\nIf you cannot find the answer in the provided information, please state that you cannot answer and suggest that the user try a different question or provide more details.\n"

/-- The projection of a history message the model prompt is built from. -/
def historyProj (h : PyDict) : PyVal × PyVal :=
  (pyGetD h "role" PyVal.none, pyGetD h "content" PyVal.none)

/-- Forwarding of one chat-history entry (lines 489-492): a fresh dictionary
holding only the `role` and `content` values (`dict.get` with no default,
hence `None` for a missing key). -/
def stripHistoryMessage (h : PyDict) : PyDict :=
  [("role", pyGetD h "role" PyVal.none),
   ("content", pyGetD h "content" PyVal.none)]

/-- The message list sent to the language model (lines 477-504): the system
message, the stripped history entries in order, and the user prompt built
from the retrieved context and the current question. -/
def build_api_messages (chat_history : List PyDict)
    (db_context question : String) : List PyDict :=
  [[("role", PyVal.str "system"), ("content", PyVal.str qaSystemContent)]]
    ++ chat_history.map stripHistoryMessage
    ++ [[("role", PyVal.str "user"),
         ("content", PyVal.str (userPromptContent db_context question))]]

/-- The fixed reference table of sample sequences (lines 554-561), keyed by
part type.  The sequence literals are as in the source. -/
def sample_sequences : List (String × String) :=
  [("promoter", "TTGACAATTAATCATCGGCTCGTATAATGTGTGGAATTGTGAGCGGATAACAATTTCACACAGGAAACAGCTATGACCATGATTACGGATTCACTGGCCGTCGTTTTACAACGTCGTGACTGGGAAAACCCTGGCGTTACCCAACTTAATCGCCTTGCAGCACATCCCC"),
   ("terminator", "CGCATAACCCTTGGGGCCTCTAAACGGGTCTTGAGGGGTTTTTTGCTGAAAGGAGGAACTATATGCGCTCATACGATATGAACGTTGAGACTGCCGCTGAGTTATCAGCTGTGAACGACATTCTGGCGTCTATCGGTGAACCTCCGGTATCAACGCTGGAAGGTGACGCTAACGCAGATGCAGCGAACGCTCGGCGTATTCTCAACAAGATTAACCGACAGATTCAA"),
   ("RBS", "AGGAGGAAAAACATATGAAACGCAAGAGCTTCAACGAGCGCCTGCAGAAAGCCGGCGAAGCGCTGCGCGAAGCGCTGCGTGAAGAGCTGCGTGCGGCGCGTCTGCGTGCGGCGCGTCGTGCGGCGAAACGTCTGCGTGCGGCGAAACGTCTGCGTGCGGCGCGTCGTGCGGCGAAACGTCTGCGTGCGGCGAAACGTCTGCGTGCGGCGCGTCGTGCGGCGAAACGTCTGCGTGCGGCGAAACGT"),
   ("CDS", "ATGGTGAGCAAGGGCGAGGAGCTGTTCACCGGGGTGGTGCCCATCCTGGTCGAGCTGGACGGCGACGTAAACGGCCACAAGTTCAGCGTGTCCGGCGAGGGCGAGGGCGATGCCACCTACGGCAAGCTGACCCTGAAGTTCATCTGCACCACCGGCAAGCTGCCCGTGCCCTGGCCCACCCTCGTGACCACCCTGACCTACGGCGTGCAGTGCTTCAGCCGCTACCCCGACCACATGAAGCAGCACGACTTCTTCAAGTCCGCCATGCCCGAAGGCTACGTCCAGGAGCGCACCATCTTCTTCAAGGACGACGGCAACTACAAGACCCGCGCCGAGGTGAAGTTCGAGGGCGACACCCTGGTGAACCGCATCGAGCTGAAGGGCATCGACTTCAAGGAGGACGGCAACATCCTGGGGCACAAGCTGGAGTACAACTACAACAGCCACAACGTCTATATCATGGCCGACAAGCAGAAGAACGGCATCAAGGTGAACTTCAAGATCCGCCACAACATCGAGGACGGCAGCGTGCAGCTCGCCGACCACTACCAGCAGAACACCCCCATCGGCGACGGCCCCGTGCTGCTGCCCGACAACCACTACCTGAGCACCCAGTCCGCCCTGAGCAAAGACCCCAACGAGAAGCGCGATCACATGGTCCTGCTGGAGTTCGTGACCGCCGCCGGGATCACTCTCGGCATGGACGAGCTGTACAAGTAA"),
   ("origin", "TTAATTAATTTAAATTTACCTTTAATTAAATTAATTAATTCGATACCCAGCTGGCAATTCCGACGTCTAAGAAACCATTATTATCATGACATTAACCTATAAAAATAGGCGTATCACGAGGCAGAATTTCAGATAAAAAAAATCCTTAGCTTTCGCTAAGGATGATTTCTGCACCTGCACCAGTCAGTAAAACGACGGCCAGTAGTCAAAAGCCTCCGACCGGAGGCTTTTGACTTGGTTCAGGTGGAGTGGGAG"),
   ("plasmid", "GACGGATCGGGAGATCTCCCGATCCCCTATGGTGCACTCTCAGTACAATCTGCTCTGATGCCGCATAGTTAAGCCAGTATCTGCTCCCTGCTTGTGTGTTGGAGGTCGCTGAGTAGTGCGCGAGCAAAATTTAAGCTACAACAAGGCAAGGCTTGACCGACAATTGCATGAAGAATCTGCTTAGGGTTAGGCGTTTTGCGCTGCTTCGCGATGTACGGGCCAGATATACGCGTTGACATTGATTATTGACTAGTTATTAATAGTAATCAATTACGGGGTCATTAGTTCATAGCCCATATATGGAGTTCCGCGTTACATAACTTACGGTAAATGGCCCGCCTGGCTGACCGCCCAACGACCCCCGCCCATTGACGTCAATAATGACGTATGTTCCCATAGTAACGCCAATAGGGACTTTCCATTGACGTCAATGGGTGGAGTATTTACGGTAAACTGCCCACTTGGCAGTACATCAAGTGTATCATATGCCAAGTACGCCCCCTATTGACGTCAATGACGGTAAATGGCCCGCCTGGCATTATGCCCAGTACATGACCTTATGGGACTTTCCTACTTGGCAGTACATCTACGTATTAGTCATCGCTATTACCATGGTGATGCGGTTTTGGCAGTACATCAATGGGCGTGGATAGCGGTTTGACTCACGGGGATTTCCAAGTCTCCACCCCATTGACGTCAATGGGAGTTTGTTTTGGCACCAAAATCAACGGGACTTTCCAAAATGTCGTAACAACTCCGCCCCATTGACGCAAATGGGCGGTAGGCGTGTACGGTGGGAGGTCTATATAAGCAGAGCTCTCTGGCTAACTAGAGAACCCACTGCTTAACTGGCTTATCGAAATTAATACGACTCACTATAGGGAGACCCAAGCTGGCTAGCGTTTAAACTTAAGCTTGGTACCGAGCTCGGATCCACTAGTCCAGTGTGGTGGAATTCTGCAGATATCCAGCACAGTGGCGGCCGCTCGAGTCTAGAGGGCCCGTTTAAACCCGCTGATCAGCCTCGACTGTGCCTTCTAGTTGCCAGCCATCTGTTGTTTGCCCCTCCCCCGTGCCTTCCTTGACCCTGGAAGGTGCCACTCCCACTGTCCTTTCCTAATAAAATGAGGAAATTGCATCGCATTGTCTGAGTAGGTGTCATTCTATTCTGGGGGGTGGGGTGGGGCAGGACAGCAAGGGGGAGGATTGGGAAGACAATAGCAGGCATGCTGGGGATGCGGTGGGCTCTATGGCTTCTGAGGCGGAAAGAACCAGCTGGGGCTCTAGGGGGTATCCCCACGCGCCCTGTAGCGGCGCATTAAGCGCGGCGGGTGTGGTGGTTACGCGCAGCGTGACCGCTACACTTGCCAGCGCCCTAGCGCCCGCTCCTTTCGCTTTCTTCCCTTCCTTTCTCGCCACGTTCGCCGGCTTTCCCCGTCAAGCTCTAAATCGGGGGCTCCCTTTAGGGTTCCGATTTAGTGCTTTACGGCACCTCGACCCCAAAAAACTTGATTAGGGTGATGGTTCACGTAGTGGGCCATCGCCCTGATAGACGGTTTTTCGCCCTTTGACGTTGGAGTCCACGTTCTTTAATAGTGGACTCTTGTTCCAAACTGGAACAACACTCAACCCTATCTCGGTCTATTCTTTTGATTTATAAGGGATTTTGCCGATTTCGGCCTATTGGTTAAAAAATGAGCTGATTTAACAAAAATTTAACGCGAATTAATTCTGTGGAATGTGTGTCAGTTAGGGTGTGGAAAGTCCCCAGGCTCCCCAGCAGGCAGAAGTATGCAAAGCATGCATCTCAATTAGTCAGCAACCAGGTGTGGAAAGTCCCCAGGCTCCCCAGCAGGCAGAAGTATGCAAAGCATGCATCTCAATTAGTCAGCAACCATAGTCCCGCCCCTAACTCCGCCCATCCCGCCCCTAACTCCGCCCAGTTCCGCCCATTCTCCGCCCCATGGCTGACTAATTTTTTTTATTTATGCAGAGGCCGAGGCCGCCTCTGCCTCTGAGCTATTCCAGAAGTAGTGAGGAGGCTTTTTTGGAGGCCTAGGCTTTTGCAAAAAGCTCCCGGGAGCTTGTATATCCATTTTCGGATCTGATCAAGAGACAGGATGAGGATCGTTTCGCATGATTGAACAAGATGGATTGCACGCAGGTTCTCCGGCCGCTTGGGTGGAGAGGCTATTCGGCTATGACTGGGCACAACAGACAATCGGCTGCTCTGATGCCGCCGTGTTCCGGCTGTCAGCGCAGGGGCGCCCGGTTCTTTTTGTCAAGACCGACCTGTCCGGTGCCCTGAATGAACTGCAGGACGAGGCAGCGCGGCTATCGTGGCTGGCCACGACGGGCGTTCCTTGCGCAGCTGTGCTCGACGTTGTCACTGAAGCGGGAAGGGACTGGCTGCTATTGGGCGAAGTGCCGGGGCAGGATCTCCTGTCATCTCACCTTGCTCCTGCCGAGAAAGTATCCATCATGGCTGATGCAATGCGGCGGCTGCATACGCTTGATCCGGCTACCTGCCCATTCGACCACCAAGCGAAACATCGCATCGAGCGAGCACGTACTCGGATGGAAGCCGGTCTTGTCGATCAGGATGATCTGGACGAAGAGCATCAGGGGCTCGCGCCAGCCGAACTGTTCGCCAGGCTCAAGGCGCGCATGCCCGACGGCGAGGATCTCGTCGTGACCCATGGCGATGCCTGCTTGCCGAATATCATGGTGGAAAATGGCCGCTTTTCTGGATTCATCGACTGTGGCCGGCTGGGTGTGGCGGACCGCTATCAGGACATAGCGTTGGCTACCCGTGATATTGCTGAAGAGCTTGGCGGCGAATGGGCTGACCGCTTCCTCGTGCTTTACGGTATCGCCGCTCCCGATTCGCAGCGCATCGCCTTCTATCGCCTTCTTGACGAGTTCTTCTGAGCGGGACTCTGGGGTTCGAAATGACCGACCAAGCGACGCCCAACCTGCCATCACGAGATTTCGATTCCACCGCCGCCTTCTATGAAAGGTTGGGCTTCGGAATCGTTTTCCGGGACGCCGGCTGGATGATCCTCCAGCGCGGGGATCTCATGCTGGAGTTCTTCGCCCACCCCAACTTGTTTATTGCAGCTTATAATGGTTACAAATAAAGCAATAGCATCACAAATTTCACAAATAAAGCATTTTTTTCACTGCATTCTAGTTGTGGTTTGTCCAAACTCATCAATGTATCTTATCATGTCTGTATACCGTCGACCTCTAGCTAGAGCTTGGCGTAATCATGGTCATAGCTGTTTCCTGTGTGAAATTGTTATCCGCTCACAATTCCACACAACATACGAGCCGGAAGCATAAAGTGTAAAGCCTGGGGTGCCTAATGAGTGAGCTAACTCACATTAATTGCGTTGCGCTCACTGCCCGCTTTCCAGTCGGGAAACCTGTCGTGCCAGCTGCATTAATGAATCGGCCAACGCGCGGGGAGAGGCGGTTTGCGTATTGGGCGCTCTTCCGCTTCCTCGCTCACTGACTCGCTGCGCTCGGTCGTTCGGCTGCGGCGAGCGGTATCAGCTCACTCAAAGGCGGTAATACGGTTATCCACAGAATCAGGGGATAACGCAGGAAAGAACATGTGAGCAAAAGGCCAGCAAAAGGCCAGGAACCGTAAAAAGGCCGCGTTGCTGGCGTTTTTCCATAGGCTCCGCCCCCCTGACGAGCATCACAAAAATCGACGCTCAAGTCAGAGGTGGCGAAACCCGACAGGACTATAAAGATACCAGGCGTTTCCCCCTGGAAGCTCCCTCGTGCGCTCTCCTGTTCCGACCCTGCCGCTTACCGGATACCTGTCCGCCTTTCTCCCTTCGGGAAGCGTGGCGCTTTCTCAATGCTCACGCTGTAGGTATCTCAGTTCGGTGTAGGTCGTTCGCTCCAAGCTGGGCTGTGTGCACGAACCCCCCGTTCAGCCCGACCGCTGCGCCTTATCCGGTAACTATCGTCTTGAGTCCAACCCGGTAAGACACGACTTATCGCCACTGGCAGCAGCCACTGGTAACAGGATTAGCAGAGCGAGGTATGTAGGCGGTGCTACAGAGTTCTTGAAGTGGTGGCCTAACTACGGCTACACTAGAAGGACAGTATTTGGTATCTGCGCTCTGCTGAAGCCAGTTACCTTCGGAAAAAGAGTTGGTAGCTCTTGATCCGGCAAACAAACCACCGCTGGTAGCGGTTTTTTTGTTTGCAAGCAGCAGATTACGCGCAGAAAAAAAGGATCTCAAGAAGATCCTTTGATCTTTTCTACGGGGTCTGACGCTCAGTGGAACGAAAACTCACGTTAAGGGATTTTGGTCATGAGATTATCAAAAAGGATCTTCACCTAGATCCTTTTAAATTAAAAATGAAGTTTTAAATCAATCTAAAGTATATATGAGTAAACTTGGTCTGACAGTTACCAATGCTTAATCAGTGAGGCACCTATCTCAGCGATCTGTCTATTTCGTTCATCCATAGTTGCCTGACTCCCCGTCGTGTAGATAACTACGATACGGGAGGGCTTACCATCTGGCCCCAGTGCTGCAATGATACCGCGAGACCCACGCTCACCGGCTCCAGATTTATCAGCAATAAACCAGCCAGCCGGAAGGGCCGAGCGCAGAAGTGGTCCTGCAACTTTATCCGCCTCCATCCAGTCTATTAATTGTTGCCGGGAAGCTAGAGTAAGTAGTTCGCCAGTTAATAGTTTGCGCAACGTTGTTGCCATTGCTACAGGCATCGTGGTGTCACGCTCGTCGTTTGGTATGGCTTCATTCAGCTCCGGTTCCCAACGATCAAGGCGAGTTACATGATCCCCCATGTTGTGCAAAAAAGCGGTTAGCTCCTTCGGTCCTCCGATCGTTGTCAGAAGTAAGTTGGCCGCAGTGTTATCACTCATGGTTATGGCAGCACTGCATAATTCTCTTACTGTCATGCCATCCGTAAGATGCTTTTCTGTGACTGGTGAGTACTCAACCAAGTCATTCTGAGAATAGTGTATGCGGCGACCGAGTTGCTCTTGCCCGGCGTCAATACGGGATAATACCGCGCCACATAGCAGAACTTTAAAAGTGCTCATCATTGGAAAACGTTCTTCGGGGCGAAAACTCTCAAGGATCTTACCGCTGTTGAGATCCAGTTCGATGTAACCCACTCGTGCACCCAACTGATCTTCAGCATCTTTTACTTTCACCAGCGTTTCTGGGTGAGCAAAAACAGGAAGGCAAAATGCCGCAAAAAAGGGAATAAGGGCGACACGGAAATGTTGAATACTCATACTCTTCCTTTTTCAATATTATTGAAGCATTTATCAGGGTTATTGTCTCATGAGCGGATACATATTTGAATGTATTTAGAAAAATAAACAAATAGGGGTTCCGCGCACATTTCCCCGAAAAGTGCCACCTGACGTC")]

/-- One entry of the `sources` list of the response (lines 567-577),
evaluated in the order of the Python dictionary literal: `name`, `type` and
`_distance` are indexed directly (raising on a missing key), `source` falls
back to `Unknown`, the sample sequence is chosen by the lowercased part type
with the plasmid sequence as the default, and `description` falls back to
the empty string. -/
def buildSource (result : PyDict) : Except String PyDict := do
  let name ← pyIndex result "name"
  let ty ← pyIndex result "type"
  let src := pyGetD result "source_collection" (PyVal.str "Unknown")
  let dist ← pyIndex result "_distance"
  let seq := (tableLookup sample_sequences (pyLower (pyToStr ty))).getD
    ((tableLookup sample_sequences "plasmid").getD "")
  let desc := pyGetD result "description" (PyVal.str "")
  Except.ok
    [("name", name), ("type", ty), ("source", src), ("similarity", dist),
     ("sequence", PyVal.str seq), ("description", desc)]

/-- The dictionary returned by `ask_question` (lines 564-579). -/
structure AskResponse where
  question : String
  answer : String
  sources : List PyDict
  execution_time : Rat
  deriving DecidableEq, Repr

/-- `SemanticSearch.ask_question`: retrieval, context construction, message
construction, the language-model call, and the response assembly, in source
order.  `llm` stands for the DeepSeek chat-completion call (streaming or
not, the accumulated answer text is what reaches the response); its raised
exceptions are `Except` errors and the function body contains no handler for
them, exactly as the source contains no try block.  `exec_time` is the
measured wall-clock duration. -/
def ask_question_full (question : String) (top_k : Nat)
    (chat_history : List PyDict)
    (temp_parts_data : Option (List PyDict))
    (temp_parts_embeddings : Option (List (List Rat)))
    (question_embedding : List Rat)
    (cosine : List Rat → List Rat → Rat)
    (index : List Rat → Option (List Cond) → Nat → List PyDict)
    (llm : List PyDict → Except String String)
    (exec_time : Rat) :
    Except String AskResponse := do
  let results ← ask_retrieval question_embedding cosine
    temp_parts_data temp_parts_embeddings top_k index
  let context_parts ← results.mapM contextPart
  let db_context := String.intercalate "\n\n" context_parts
  let api_messages := build_api_messages chat_history db_context question
  let answer ← llm api_messages
  let sources ← results.mapM buildSource
  Except.ok
    { question := question
      answer := answer
      sources := sources
      execution_time := exec_time }

/-! ## The QA page error handler (`pages/qa.py`, lines 633-642) -/

/-- The assistant chat message that the page appends to the session when any
exception escapes the search or language-model call of a turn. -/
structure QaMessage where
  role : String
  content : String
  sources : List PyDict
  timestamp : String
  deriving DecidableEq, Repr

/-- The error message recorded by the handler of `pages/qa.py`
(lines 634-641): the error text is embedded in the content and the sources
list is empty. -/
def qa_turn_error_message (e : String) (timestamp : String) : QaMessage :=
  { role := "assistant"
    content := "🧬 Sorry, an error occurred: " ++ e
    sources := []
    timestamp := timestamp }

/-! ## Helper lemmas -/

/-- A successful salvage never captures the empty string: the regex group
requires at least one character. -/
theorem salvageTail_ne_empty {cs : List Char} {s : String}
    (h : salvageTail cs = some s) : s ≠ "" := by
  unfold salvageTail at h
  split at h
  case _ rest _ =>
    split at h
    case _ rest2 _ =>
      simp only at h
      split at h
      · exact absurd h (by simp)
      case _ hcap =>
        split at h
        · injection h with h1
          subst h1
          intro hs
          have : (rest2.takeWhile (fun c => c != '"')) = [] := by
            have := congrArg String.data hs
            simpa using this
          simp [this] at hcap
        · exact absurd h (by simp)
    · exact absurd h (by simp)
  · exact absurd h (by simp)

/-- The leftmost-search wrapper inherits the non-emptiness of the capture. -/
theorem salvageSearch_ne_empty :
    ∀ {cs : List Char} {s : String}, salvageSearch cs = some s → s ≠ "" := by
  intro cs
  induction cs with
  | nil => intro s h; exact absurd h (by simp [salvageSearch])
  | cons c rest ih =>
    intro s h
    unfold salvageSearch at h
    split at h
    · split at h
      case _ heq =>
        injection h with h1
        subst h1
        exact salvageTail_ne_empty heq
      · exact ih h
    · exact ih h

/-- Non-emptiness for the full salvage step. -/
theorem salvageOf_ne_empty {content : String} {s : String}
    (h : salvageOf content = some s) : s ≠ "" := by
  unfold salvageOf at h
  split at h
  · exact salvageSearch_ne_empty h
  · exact absurd h (by simp)

/-! ## Claims about the query optimizer -/

/-- C7: for every input query, `optimize_query` converts any transport or
API failure into a well-formed result with status `error` whose
`optimized_query` (and `original_query`) is the original query unchanged;
the embedding is a total function, so no exception crosses the boundary. -/
theorem c7_optimizer_error_path (query e : String) :
    (optimize_query query (ApiOutcome.failure e)).status = "error" ∧
    (optimize_query query (ApiOutcome.failure e)).optimized_query = query ∧
    (optimize_query query (ApiOutcome.failure e)).original_query = query ∧
    (optimize_query query (ApiOutcome.failure e)).error_message = some e :=
  ⟨rfl, rfl, rfl, rfl⟩

/-- C2 counterexample: on a model response that fails to parse as JSON and
where the regex salvage finds nothing, `optimize_query` returns status
`partial_success`, not `error` as claimed; moreover with an empty input
query the returned `optimized_query` is the empty string, refuting the
claimed non-emptiness. -/
theorem c2_counterexample :
    (optimize_query "" (ApiOutcome.response "no json here" Option.none)).status
      = "partial_success" ∧
    (optimize_query "" (ApiOutcome.response "no json here" Option.none)).status
      ≠ "error" ∧
    (optimize_query "" (ApiOutcome.response "no json here" Option.none)).optimized_query
      = "" := by
  refine ⟨rfl, ?_, by decide⟩
  decide

/-- C2 (amended): on every model response that fails to parse as JSON,
`optimize_query` returns status `partial_success` in both salvage outcomes -
with the salvaged `optimized_query` when the regex salvage succeeds, and
with the original input query verbatim when it fails - and the returned
`optimized_query` is non-empty whenever the input query is non-empty. -/
theorem c2_amended_parse_failure (query content : String) :
    (optimize_query query (ApiOutcome.response content Option.none)).status
      = "partial_success" ∧
    (∀ s, salvageOf content = some s →
      (optimize_query query (ApiOutcome.response content Option.none)).optimized_query = s) ∧
    (salvageOf content = Option.none →
      (optimize_query query (ApiOutcome.response content Option.none)).optimized_query = query) ∧
    (query ≠ "" →
      (optimize_query query (ApiOutcome.response content Option.none)).optimized_query ≠ "") := by
  refine ⟨rfl, ?_, ?_, ?_⟩
  · intro s h
    simp [optimize_query, h]
  · intro h
    simp [optimize_query, h]
  · intro hq
    cases h : salvageOf content with
    | none => simpa [optimize_query, h] using hq
    | some s =>
      have hs := salvageOf_ne_empty h
      simpa [optimize_query, h] using hs

/-- C2 witness: the amended statement evaluated at concrete inputs covering
both hypothesis branches - a content with a salvageable field, and a content
without one. -/
theorem c2_amended_witness :
    (optimize_query "red light promoter"
      (ApiOutcome.response "oops \"optimized_query\": \"red light sensing promoter\"" Option.none)).optimized_query
      = "red light sensing promoter" ∧
    (optimize_query "red light promoter"
      (ApiOutcome.response "totally malformed" Option.none)).optimized_query
      = "red light promoter" ∧
    (optimize_query "red light promoter"
      (ApiOutcome.response "totally malformed" Option.none)).optimized_query ≠ "" := by
  refine ⟨?_, ?_, ?_⟩
  · exact (c2_amended_parse_failure "red light promoter"
      "oops \"optimized_query\": \"red light sensing promoter\"").2.1
      "red light sensing promoter" (by decide)
  · exact (c2_amended_parse_failure "red light promoter" "totally malformed").2.2.1 (by decide)
  · exact (c2_amended_parse_failure "red light promoter" "totally malformed").2.2.2 (by decide)

/-! ## Claims about the search orchestrator -/

/-- Replacement of the inclusion filters inferred by the optimizer, leaving
everything else - in particular the status and the exclusion filters -
untouched. -/
def withIncludeFilters (r : OptResult) (its iss : List String) : OptResult :=
  { r with filters := { r.filters with include_types := its, include_sources := iss } }

/-- C3: the compiled predicate of `search` is invariant under arbitrary
changes of the optimizer-inferred `include_types` and `include_sources`
(those filters are never added to it; only the exclusion filters reach
`exclusionConds`), and the optimized query text is substituted for vector
encoding exactly when the optimization status is `success`. -/
theorem c3_include_filters_never_applied (query : String) (types srcs : List String)
    (r : OptResult) (its iss : List String) :
    buildWhere types srcs true (some (withIncludeFilters r its iss)) =
      buildWhere types srcs true (some r) ∧
    buildWhere types srcs true (some r) =
      buildWhere types srcs false Option.none ++
        exclusionConds r.status r.filters.exclude_sources r.filters.exclude_types ∧
    (r.status = "success" → usedQuery query true (some r) = r.optimized_query) ∧
    (r.status ≠ "success" → usedQuery query true (some r) = query) := by
  refine ⟨rfl, ?_, ?_, ?_⟩
  · simp [buildWhere]
  · intro h
    simp [usedQuery, h]
  · intro h
    simp [usedQuery, beq_iff_eq, h]

/-- A successful optimization result with both inclusion and exclusion
filters inferred. -/
def optSuccessSample : OptResult :=
  { status := "success"
    original_query := "orig query"
    optimized_query := "optimized text"
    explanation := "rewritten"
    error_message := Option.none
    key_terms := ["promoter"]
    part_type := "promoter"
    organism := "E. coli"
    filters := ⟨["promoter"], ["terminator"], ["igem"], ["addgene"]⟩ }

/-- A failed optimization result. -/
def optErrorSample : OptResult :=
  { status := "error"
    original_query := "orig query"
    optimized_query := "orig query"
    explanation := "Failed to optimize query"
    error_message := some "timeout"
    key_terms := []
    part_type := ""
    organism := ""
    filters := ⟨[], [], [], []⟩ }

/-- C3 witness: the statement evaluated at concrete successful and failed
optimization results. -/
theorem c3_witness :
    buildWhere ["promoter"] ["igem"] true
        (some (withIncludeFilters optSuccessSample ["cds"] ["lab"])) =
      buildWhere ["promoter"] ["igem"] true (some optSuccessSample) ∧
    usedQuery "orig query" true (some optSuccessSample) = "optimized text" ∧
    usedQuery "orig query" true (some optErrorSample) = "orig query" := by
  refine ⟨?_, ?_, ?_⟩
  · exact (c3_include_filters_never_applied "orig query" ["promoter"] ["igem"]
      optSuccessSample ["cds"] ["lab"]).1
  · exact (c3_include_filters_never_applied "orig query" ["promoter"] ["igem"]
      optSuccessSample ["cds"] ["lab"]).2.2.1 rfl
  · exact (c3_include_filters_never_applied "orig query" ["promoter"] ["igem"]
      optErrorSample ["cds"] ["lab"]).2.2.2 (by decide)

/-- C10: whenever `search` returns a response, its `query` field is the
original input query string (the optimized text is only handed to the
embedding model), and `optimize`, `top_k` and `filters` echo the call
arguments unchanged. -/
theorem c10_response_echoes_arguments (query : String) (top_k : Nat) (optimize : Bool)
    (types srcs : List String) (api : ApiOutcome)
    (encode : String → List Rat)
    (index : List Rat → Option (List Cond) → Nat → List PyDict)
    (resp : SearchResponse)
    (h : search_core query top_k optimize types srcs api encode index = Except.ok resp) :
    resp.query = query ∧ resp.optimize = optimize ∧ resp.top_k = top_k ∧
    resp.filters = ⟨types, srcs⟩ := by
  unfold search_core at h
  split at h <;> (dsimp only at h; split at h) <;>
    first
      | exact Except.noConfusion h
      | (injection h with h1; subst h1; exact ⟨rfl, rfl, rfl, rfl⟩)

/-- The language-model outcome used by the C10 witness: a successful
optimization. -/
def apiSuccessSample : ApiOutcome :=
  ApiOutcome.response "raw model content"
    (some
      { optimized_query := some "optimized text"
        explanation := Option.none
        key_terms := Option.none
        part_type := Option.none
        organism := Option.none
        filters := Option.none })

/-- The response computed by `search_core` on the C10 witness input. -/
def respSample : SearchResponse :=
  { query := "orig query"
    optimize := true
    top_k := 4
    filters := ⟨["promoter"], ["igem"]⟩
    optimization := some (optimize_query "orig query" apiSuccessSample)
    results := [] }

/-- C10 witness: the statement evaluated at a call with `optimize = true`
and a successful optimization. -/
theorem c10_witness :
    respSample.query = "orig query" ∧ respSample.optimize = true ∧
    respSample.top_k = 4 ∧ respSample.filters = ⟨["promoter"], ["igem"]⟩ :=
  c10_response_echoes_arguments "orig query" 4 true ["promoter"] ["igem"]
    apiSuccessSample (fun _ => []) (fun _ _ _ => []) respSample rfl

/-! ## Claims about the filter compiler -/

/-- Modelled from the spec words of the claim: the predicate the claim
asserts for the igem branch, with AND between the two hierarchy levels -
`(type_level_1 = DNA Elements AND type_level_2 = Regulatory) OR name LIKE
percent promoter percent`.  To be compared with the predicate the code
compiles. -/
def claimIgemPromoterPred (r : Row) : Bool :=
  (r.type_level_1 == "DNA Elements" && r.type_level_2 == "Regulatory") ||
  strContains r.name "promoter"

/-- A row classified as `DNA Elements` at level 1 but not `Regulatory` at
level 2, with no `promoter` substring in its name. -/
def rowDnaOnly : Row :=
  { name := "BBa_X0001"
    type := ""
    type_level_1 := "DNA Elements"
    type_level_2 := "Coding"
    source_collection := "igem"
    description := "" }

/-- C1 counterexample: with `types = [promoter]` and `source_collections =
[igem]`, the code joins the three type conditions with OR, so `rowDnaOnly`
(level 1 matches, level 2 does not, name heuristic does not) satisfies the
compiled predicate while the predicate asserted by the claim rejects it. -/
theorem c1_counterexample :
    matchesWhere (buildWhere ["promoter"] ["igem"] false Option.none) rowDnaOnly = true ∧
    claimIgemPromoterPred rowDnaOnly = false := by
  constructor
  · decide
  · decide

/-- C1 (amended): with `types = [promoter]` and a source list containing the
tag `igem`, the compiled predicate matches exactly the rows satisfying
`type_level_1 = DNA Elements` OR `type_level_2 = Regulatory` OR `name LIKE
percent promoter percent` (an inclusive disjunction of all three), conjoined
with the source membership; with a non-empty source list not containing
`igem`, exactly the rows satisfying `type = promoter` conjoined with the
source membership. -/
theorem c1_amended_promoter_filter (srcs : List String) (r : Row) :
    ("igem" ∈ srcs →
      matchesWhere (buildWhere ["promoter"] srcs false Option.none) r =
        ((r.type_level_1 == "DNA Elements" || r.type_level_2 == "Regulatory" ||
          strContains r.name "promoter") && srcs.contains r.source_collection)) ∧
    (srcs ≠ [] → "igem" ∉ srcs →
      matchesWhere (buildWhere ["promoter"] srcs false Option.none) r =
        ((r.type == "promoter") && srcs.contains r.source_collection)) := by
  have hpr : typeCondsFor true "promoter" =
      [Atom.eq "type_level_1" "DNA Elements", Atom.eq "type_level_2" "Regulatory",
       Atom.like "name" "promoter"] := rfl
  constructor
  · intro h
    have hne : srcs ≠ [] := by
      intro hnil
      rw [hnil] at h
      exact absurd h (List.not_mem_nil "igem")
    have hie : srcs.isEmpty = false := by simp [hne]
    simp [buildWhere, matchesWhere, evalCond, evalAtom, rowGet,
      hie, h, hpr, Bool.or_assoc, Bool.and_assoc]
  · intro hne h
    have hie : srcs.isEmpty = false := by simp [hne]
    simp [buildWhere, typeCondsFor, matchesWhere, evalCond, evalAtom, rowGet,
      hie, h]

/-- C1 witness: the amended statement evaluated at concrete source lists for
both branches, with `rowDnaOnly` as the row. -/
theorem c1_amended_witness :
    matchesWhere (buildWhere ["promoter"] ["igem"] false Option.none) rowDnaOnly =
      ((rowDnaOnly.type_level_1 == "DNA Elements" ||
        rowDnaOnly.type_level_2 == "Regulatory" ||
        strContains rowDnaOnly.name "promoter") &&
       ["igem"].contains rowDnaOnly.source_collection) ∧
    matchesWhere (buildWhere ["promoter"] ["lab"] false Option.none) rowDnaOnly =
      ((rowDnaOnly.type == "promoter") && ["lab"].contains rowDnaOnly.source_collection) := by
  constructor
  · exact (c1_amended_promoter_filter ["igem"] rowDnaOnly).1 (by simp)
  · exact (c1_amended_promoter_filter ["lab"] rowDnaOnly).2 (by simp) (by simp)

/-- A row carrying the canonical source tag `igem`. -/
def rowIgemTagged : Row :=
  { name := "p1"
    type := "promoter"
    type_level_1 := ""
    type_level_2 := ""
    source_collection := "igem"
    description := "" }

/-- C6 counterexample: supplying the spelling `iGEM` as an inclusion filter
compiles to membership in the raw list (no canonicalization at all), so a
row carrying the canonical tag `igem` is not matched; and on the exclusion
side the spelling `iGEM registry` is not canonicalized either, because the
lookup key is lowercased first and `igem registry` is not a key of the alias
table. -/
theorem c6_counterexample :
    buildWhere [] ["iGEM"] false Option.none =
      [Cond.inSet "source_collection" ["iGEM"]] ∧
    matchesWhere (buildWhere [] ["iGEM"] false Option.none) rowIgemTagged = false ∧
    canonicalizeSource "iGEM registry" = "iGEM registry" := by
  refine ⟨by decide, by decide, by decide⟩

/-- An optimization result with status success and the given excluded
sources, as consumed by the exclusion branch of `search`. -/
def mkSuccessExcl (excl : List String) : OptResult :=
  { status := "success"
    original_query := ""
    optimized_query := ""
    explanation := ""
    error_message := Option.none
    key_terms := []
    part_type := ""
    organism := ""
    filters := ⟨[], [], [], excl⟩ }

/-- C6 (amended): source inclusion compiles to membership in the raw,
uncanonicalized source list; only the exclusion branch canonicalizes, by
lowercasing the spelling and looking it up in the alias table, which maps
`iGEM` and `igem` to `igem` but leaves `iGEM registry` unchanged because its
lowercased form is not a key of the table. -/
theorem c6_amended_canonicalization (srcs excl : List String) (r : Row)
    (h1 : srcs ≠ []) (h2 : excl ≠ []) :
    buildWhere [] srcs false Option.none =
      [Cond.inSet "source_collection" srcs] ∧
    matchesWhere (buildWhere [] srcs false Option.none) r =
      srcs.contains r.source_collection ∧
    buildWhere [] [] true (some (mkSuccessExcl excl)) =
      [Cond.notInSet "source_collection" (excl.map canonicalizeSource)] ∧
    canonicalizeSource "iGEM" = "igem" ∧
    canonicalizeSource "igem" = "igem" ∧
    canonicalizeSource "iGEM registry" = "iGEM registry" := by
  refine ⟨?_, ?_, ?_, by decide, by decide, by decide⟩
  · simp [buildWhere, h1]
  · simp [buildWhere, matchesWhere, evalCond, rowGet, h1]
  · simp [buildWhere, exclusionConds, mkSuccessExcl, h2]

/-- C6 witness: the amended statement evaluated at the three spellings the
claim names, with `rowIgemTagged` as the row. -/
theorem c6_amended_witness :
    buildWhere [] ["iGEM registry", "iGEM", "igem"] false Option.none =
      [Cond.inSet "source_collection" ["iGEM registry", "iGEM", "igem"]] ∧
    buildWhere [] [] true (some (mkSuccessExcl ["iGEM registry", "iGEM", "igem"])) =
      [Cond.notInSet "source_collection"
        (["iGEM registry", "iGEM", "igem"].map canonicalizeSource)] := by
  constructor
  · exact (c6_amended_canonicalization ["iGEM registry", "iGEM", "igem"]
      ["iGEM registry", "iGEM", "igem"] rowIgemTagged (by decide) (by decide)).1
  · exact (c6_amended_canonicalization ["iGEM registry", "iGEM", "igem"]
      ["iGEM registry", "iGEM", "igem"] rowIgemTagged (by decide) (by decide)).2.2.1

/-! ## Claims about the conversational QA engine -/

/-- An ad-hoc uploaded part with all the fields the upload path provides. -/
def tempPromoterPart : PyDict :=
  [("name", PyVal.str "P1"), ("type", PyVal.str "promoter"),
   ("description", PyVal.str "a strong promoter"), ("source", PyVal.str "lab")]

/-- C4: evaluation of `ask_question` at a well-formed one-part ad-hoc
dataset whose row count equals its embedding count.  The ad-hoc retrieval
branch stores the cosine score under the key `similarity`, but the response
assembly reads `result[_distance]` for every source (line 572), a key only
the main-index rows carry, so the call raises `KeyError` instead of
returning the response the claim describes. -/
theorem c4_adhoc_sources_keyerror :
    ask_question_full "what promoter should I use" 5 []
      (some [tempPromoterPart]) (some [[1]])
      [1] (fun _ _ => 1) (fun _ _ _ => []) (fun _ => Except.ok "an answer") 0 =
      Except.error "KeyError: _distance" := by
  rfl

/-- C5 counterexample: when the language-model call raises, `ask_question`
itself raises (there is no handler in `ask_question`), so no well-formed
response with empty sources and an execution time is returned by the
engine - refuting the claim at this concrete input. -/
theorem c5_counterexample :
    ask_question_full "q" 5 [] Option.none Option.none [1] (fun _ _ => 0)
      (fun _ _ _ => []) (fun _ => Except.error "API connection refused") 0 =
      Except.error "API connection refused" := by
  rfl

/-- C5 (amended): `ask_question` propagates any exception of the
language-model call unchanged; the catch lives in the caller (`pages/qa.py`),
whose handler appends an assistant chat message embedding the error text,
with an empty sources list (and no execution time). -/
theorem c5_amended_llm_error_propagates (e question : String) (top_k : Nat)
    (chat_history : List PyDict) (qe : List Rat)
    (cosine : List Rat → List Rat → Rat) (t : Rat) (ts : String) :
    ask_question_full question top_k chat_history Option.none Option.none qe cosine
      (fun _ _ _ => []) (fun _ => Except.error e) t = Except.error e ∧
    (qa_turn_error_message e ts).role = "assistant" ∧
    (qa_turn_error_message e ts).content = "🧬 Sorry, an error occurred: " ++ e ∧
    (qa_turn_error_message e ts).sources = [] := by
  exact ⟨rfl, rfl, rfl, rfl⟩

/-- C8: whenever the ad-hoc dataset and embeddings fail the guard of line
430 - either of them missing or empty, or their lengths different - the
retrieval step of `ask_question` returns (it does not raise) the result of
an unfiltered top-k search on the main index. -/
theorem c8_adhoc_mismatch_falls_back
    (qe : List Rat) (cosine : List Rat → List Rat → Rat)
    (tpd : Option (List PyDict)) (tpe : Option (List (List Rat)))
    (top_k : Nat) (index : List Rat → Option (List Cond) → Nat → List PyDict)
    (h : (pyTruthy tpd && pyTruthy tpe &&
      ((tpd.getD []).length == (tpe.getD []).length)) = false) :
    ask_retrieval qe cosine tpd tpe top_k index =
      Except.ok (index qe Option.none top_k) := by
  unfold ask_retrieval
  rw [h]
  rfl

/-- A concrete stub for the main vector index. -/
def mainIndexStub : List Rat → Option (List Cond) → Nat → List PyDict :=
  fun _ _ _ => [[("name", PyVal.str "row0")]]

/-- C8 witness: a supplied one-row dataset with an empty embedding list
falls back to the stubbed main index. -/
theorem c8_witness :
    ask_retrieval [1] (fun _ _ => 0) (some [tempPromoterPart]) (some []) 3 mainIndexStub =
      Except.ok [[("name", PyVal.str "row0")]] :=
  c8_adhoc_mismatch_falls_back [1] (fun _ _ => 0) (some [tempPromoterPart])
    (some []) 3 mainIndexStub (by decide)

/-- C9: each chat-history entry forwarded to the language model carries
exactly the keys `role` and `content`, and the message list sent to the
model depends on the history only through the `role` and `content`
projections - two histories that agree on those, whatever their timestamps,
sources or other fields, produce the same model prompt. -/
theorem c9_history_strip (h1 h2 : List PyDict) (db_context question : String)
    (hproj : h1.map historyProj = h2.map historyProj) :
    build_api_messages h1 db_context question =
      build_api_messages h2 db_context question ∧
    ∀ m ∈ h1.map stripHistoryMessage, m.map Prod.fst = ["role", "content"] := by
  have key : ∀ l : List PyDict, l.map stripHistoryMessage =
      (l.map historyProj).map (fun p => [("role", p.1), ("content", p.2)]) := by
    intro l
    rw [List.map_map]
    rfl
  constructor
  · unfold build_api_messages
    rw [key, key, hproj]
  · intro m hm
    obtain ⟨x, _, rfl⟩ := List.mem_map.mp hm
    rfl

/-- C9 witness: a history entry with timestamp and sources fields produces
the same model prompt as its stripped form. -/
theorem c9_witness :
    build_api_messages
      [[("role", PyVal.str "user"), ("content", PyVal.str "hi"),
        ("timestamp", PyVal.str "2024-01-01 10:00:00"), ("sources", PyVal.none)]]
      "ctx" "q" =
    build_api_messages
      [[("role", PyVal.str "user"), ("content", PyVal.str "hi")]]
      "ctx" "q" :=
  (c9_history_strip
    [[("role", PyVal.str "user"), ("content", PyVal.str "hi"),
      ("timestamp", PyVal.str "2024-01-01 10:00:00"), ("sources", PyVal.none)]]
    [[("role", PyVal.str "user"), ("content", PyVal.str "hi")]]
    "ctx" "q" (by decide)).1

end SynbioParts
